import Mathlib

/-!
Shallow embedding of the OTP authentication core of the rainwise-ai
repository: the send-otp edge function (rate limiting, invalidation,
code generation, insertion, delivery dispatch) and the verify-otp edge
function (lookup, expiry check, attempt-limit check, hash comparison,
consumption, downstream session minting).

Timestamps are modelled as `Int` milliseconds (JS `Date.getTime()`).
The SHA-256 hash and the downstream collaborators (email delivery,
account/session provider) are modelled as parameters: the hash as an
arbitrary `String → String` function, delivery and downstream success
as booleans.  Database tables are lists of rows; row updates keyed by
`id` or `email` are maps over the list, matching the `.update().eq()`
calls in the source.
-/

/-- Configuration constant from verify-otp: `MAX_VERIFICATION_ATTEMPTS = 5`. -/
def MAX_VERIFICATION_ATTEMPTS : Nat := 5

/-- Configuration constant from send-otp: `OTP_EXPIRY_MINUTES = 5`. -/
def OTP_EXPIRY_MINUTES : Nat := 5

/-- Configuration constant from send-otp: `MAX_REQUESTS_PER_WINDOW = 3`. -/
def MAX_REQUESTS_PER_WINDOW : Nat := 3

/-- Configuration constant from send-otp: `RATE_LIMIT_WINDOW_MINUTES = 10`. -/
def RATE_LIMIT_WINDOW_MINUTES : Nat := 10

/-- The rate-limit window in milliseconds: `RATE_LIMIT_WINDOW_MINUTES * 60 * 1000`. -/
def RATE_LIMIT_WINDOW_MS : Int := (RATE_LIMIT_WINDOW_MINUTES : Int) * 60 * 1000

/-- The code TTL in milliseconds: `OTP_EXPIRY_MINUTES * 60 * 1000`. -/
def OTP_EXPIRY_MS : Int := (OTP_EXPIRY_MINUTES : Int) * 60 * 1000

/-- `email.toLowerCase().trim()` from both handlers: lowercase each
character, then strip leading and trailing whitespace. -/
def normalizeEmail (email : String) : String :=
  String.mk
    ((((email.toList.map Char.toLower).dropWhile Char.isWhitespace).reverse.dropWhile
      Char.isWhitespace).reverse)

/-- One character of the regex class `[^\s@]`: not whitespace and not `@`. -/
def emailAtomChar (c : Char) : Bool := !c.isWhitespace && c != '@'

/-- Matching of the anchored regex `^[^\s@]+@[^\s@]+\.[^\s@]+$` on a character
list.  A string matches iff it splits at a unique `@` into a nonempty
whitespace-free local part and a domain that is whitespace-free and has a
`.` at an interior position (so that both `[^\s@]+` groups around the dot
are nonempty). -/
def matchesEmailRegex (cs : List Char) : Bool :=
  match cs.splitOn '@' with
  | [localPart, domainPart] =>
      !localPart.isEmpty && localPart.all (fun c => !c.isWhitespace) &&
      !domainPart.isEmpty && domainPart.all (fun c => !c.isWhitespace) &&
      ((domainPart.drop 1).dropLast.contains '.')
  | _ => false

/-- `isValidEmail` from both handlers: the regex test plus `email.length <= 255`. -/
def isValidEmail (email : String) : Bool :=
  matchesEmailRegex email.toList && decide (email.length ≤ 255)

/-- `isValidOTP` from verify-otp: the regex `^\d{6}$`, i.e. exactly six
decimal digit characters. -/
def isValidOTP (otp : String) : Bool :=
  decide (otp.toList.length = 6) && otp.toList.all Char.isDigit

/-- The numeric value produced by `generateOTP` from a 32-bit random word
`w`: `100000 + (w % 900000)`. -/
def generateOTPVal (w : Nat) : Nat := 100000 + w % 900000

/-- Least-significant-first decimal digits of `n`, with explicit fuel so
that the recursion is structural. -/
def decDigitsAux : Nat → Nat → List Nat
  | _, 0 => []
  | 0, _ + 1 => []
  | fuel + 1, n + 1 => (n + 1) % 10 :: decDigitsAux fuel ((n + 1) / 10)

/-- Least-significant-first decimal digits of `n`. -/
def decDigits (n : Nat) : List Nat := decDigitsAux n n

/-- The decimal digit characters of `n`, most significant first. -/
def decimalString (n : Nat) : List Char :=
  (decDigits n).reverse.map Nat.digitChar

/-- `generateOTP` from send-otp: `String(100000 + (w % 900000))` where `w`
is the 32-bit word drawn from `crypto.getRandomValues`. -/
def generateOTP (w : Nat) : String := String.mk (decimalString (generateOTPVal w))

/-- `Math.ceil(a / b)` on integer numerator `a` and positive integer
denominator `b` (used for `waitSeconds` in the throttle branch). -/
def intCeilDiv (a b : Int) : Int := -((-a) / b)

/-- A row of the `otp_codes` table. -/
structure OtpRecord where
  id : Nat
  email : String
  otpHash : String
  createdAt : Int
  expiresAt : Int
  used : Bool
  attempts : Nat
deriving DecidableEq, Repr

/-- A row of the `otp_rate_limits` table. -/
structure RateLimitRow where
  email : String
  requestCount : Nat
  firstRequestAt : Int
  lastRequestAt : Int
deriving DecidableEq, Repr

/-- The durable store: both tables. -/
structure DbState where
  otpCodes : List OtpRecord
  rateLimits : List RateLimitRow
deriving DecidableEq, Repr

/-- The row filter of the verify-otp fetch:
`.eq("email", e).eq("used", false)`. -/
def activeFor (e : String) (r : OtpRecord) : Bool := r.email == e && !r.used

/-- `order("created_at", descending).limit(1)`: pick a row maximizing
`createdAt` (the earlier list element wins ties). -/
def pickLatest : List OtpRecord → Option OtpRecord
  | [] => none
  | r :: rs =>
    match pickLatest rs with
    | none => some r
    | some b => if b.createdAt > r.createdAt then some b else some r

/-- The verify-otp fetch of the active record: the most recently created
row with `used = false` for the identifier. -/
def fetchActive (s : DbState) (e : String) : Option OtpRecord :=
  pickLatest (s.otpCodes.filter (activeFor e))

/-- `.update(\x7b used: true \x7d).eq("id", id)` on `otp_codes`. -/
def markUsed (codes : List OtpRecord) (id : Nat) : List OtpRecord :=
  codes.map (fun r => if r.id = id then { r with used := true } else r)

/-- `.update(\x7b attempts: n \x7d).eq("id", id)` on `otp_codes` (the source
writes the read value plus one, not an atomic increment). -/
def setAttempts (codes : List OtpRecord) (id : Nat) (n : Nat) : List OtpRecord :=
  codes.map (fun r => if r.id = id then { r with attempts := n } else r)

/-- `.update(\x7b used: true \x7d).eq("email", e).eq("used", false)` on
`otp_codes`: the invalidation step of send-otp. -/
def invalidateOutstanding (codes : List OtpRecord) (e : String) : List OtpRecord :=
  codes.map (fun r => if r.email == e && !r.used then { r with used := true } else r)

/-- `.select().eq("email", e).single()` on `otp_rate_limits`. -/
def findRateLimit (rls : List RateLimitRow) (e : String) : Option RateLimitRow :=
  rls.find? (fun rl => rl.email == e)

/-- `.update(...).eq("email", e)` on `otp_rate_limits`. -/
def updateRateLimit (rls : List RateLimitRow) (e : String)
    (f : RateLimitRow → RateLimitRow) : List RateLimitRow :=
  rls.map (fun rl => if rl.email == e then f rl else rl)

/-- Outcome of the verify-otp handler, one constructor per response the
source can produce. -/
inductive VerifyResult where
  | invalidEmail
  | invalidCodeFormat
  | invalidOrExpired
  | expired
  | tooManyAttempts
  | invalidCode (remainingAttempts : Nat)
  | verified
  | downstreamError
deriving DecidableEq, Repr

/-- HTTP status code of each verify-otp response. -/
def verifyHttpStatus : VerifyResult → Nat
  | .invalidEmail => 400
  | .invalidCodeFormat => 400
  | .invalidOrExpired => 400
  | .expired => 400
  | .tooManyAttempts => 429
  | .invalidCode _ => 400
  | .verified => 200
  | .downstreamError => 500

/-- The message string of each verify-otp response, verbatim from the
source. -/
def verifyMessage : VerifyResult → String
  | .invalidEmail => "Invalid verification request"
  | .invalidCodeFormat => "Invalid verification code format"
  | .invalidOrExpired => "Invalid or expired verification code"
  | .expired => "Verification code has expired. Please request a new one."
  | .tooManyAttempts => "Too many failed attempts. Please request a new code."
  | .invalidCode _ => "Invalid verification code"
  | .verified => "Verification successful"
  | .downstreamError => "Verification failed. Please try again."

/-- The verify-otp handler.  `hash` models `hashOTP` (SHA-256 hex digest);
`downstreamOk` models whether the account-resolution/session-minting
steps after consumption succeed (a failure there is caught and mapped to
the generic 500 response, after the record has already been updated). -/
def verifyOtp (hash : String → String) (downstreamOk : Bool) (now : Int)
    (email otp : String) (s : DbState) : VerifyResult × DbState :=
  if !isValidEmail email then (.invalidEmail, s)
  else if !isValidOTP otp then (.invalidCodeFormat, s)
  else
    let e := normalizeEmail email
    match fetchActive s e with
    | none => (.invalidOrExpired, s)
    | some r =>
      if now > r.expiresAt then
        (.expired, { s with otpCodes := markUsed s.otpCodes r.id })
      else if r.attempts ≥ MAX_VERIFICATION_ATTEMPTS then
        (.tooManyAttempts, { s with otpCodes := markUsed s.otpCodes r.id })
      else if hash otp ≠ r.otpHash then
        (.invalidCode (MAX_VERIFICATION_ATTEMPTS - r.attempts - 1),
         { s with otpCodes := setAttempts s.otpCodes r.id (r.attempts + 1) })
      else
        let s₁ : DbState := { s with otpCodes := markUsed s.otpCodes r.id }
        if downstreamOk then
          (.verified,
           { s₁ with rateLimits := s₁.rateLimits.filter (fun rl => rl.email != e) })
        else (.downstreamError, s₁)

/-- Outcome of the send-otp handler. -/
inductive IssueResult where
  | invalidEmail
  | rateLimited (retryAfter : Int)
  | issued (expiresIn : Nat)
  | deliveryFailed
deriving DecidableEq, Repr

/-- HTTP status code of each send-otp response. -/
def issueHttpStatus : IssueResult → Nat
  | .invalidEmail => 400
  | .rateLimited _ => 429
  | .issued _ => 200
  | .deliveryFailed => 500

/-- The tail of send-otp after the rate-limit gate: invalidate outstanding
codes, generate and hash a fresh code, insert the new row, dispatch
delivery.  A delivery failure throws after the insert, so the inserted
row stays in the store. -/
def issueTail (hash : String → String) (rand : Nat) (deliveryOk : Bool)
    (now : Int) (newId : Nat) (e : String) (codes : List OtpRecord)
    (rls : List RateLimitRow) : IssueResult × DbState :=
  let codes₁ := invalidateOutstanding codes e
  let otp := generateOTP rand
  let newRec : OtpRecord :=
    { id := newId, email := e, otpHash := hash otp, createdAt := now,
      expiresAt := now + OTP_EXPIRY_MS, used := false, attempts := 0 }
  let codes₂ := codes₁ ++ [newRec]
  if deliveryOk then (.issued (OTP_EXPIRY_MINUTES * 60), ⟨codes₂, rls⟩)
  else (.deliveryFailed, ⟨codes₂, rls⟩)

/-- The send-otp handler.  `rand` models the 32-bit word drawn from
`crypto.getRandomValues`; `newId` the id the store assigns to the
inserted row; `deliveryOk` whether the Resend call succeeds. -/
def sendOtp (hash : String → String) (rand : Nat) (deliveryOk : Bool)
    (now : Int) (newId : Nat) (email : String) (s : DbState) :
    IssueResult × DbState :=
  if !isValidEmail email then (.invalidEmail, s)
  else
    let e := normalizeEmail email
    let windowStart := now - RATE_LIMIT_WINDOW_MS
    match findRateLimit s.rateLimits e with
    | some rl =>
      if rl.firstRequestAt > windowStart then
        if rl.requestCount ≥ MAX_REQUESTS_PER_WINDOW then
          let resetTime := rl.firstRequestAt + RATE_LIMIT_WINDOW_MS
          (.rateLimited (intCeilDiv (resetTime - now) 1000), s)
        else
          issueTail hash rand deliveryOk now newId e s.otpCodes
            (updateRateLimit s.rateLimits e
              (fun x => { x with requestCount := rl.requestCount + 1, lastRequestAt := now }))
      else
        issueTail hash rand deliveryOk now newId e s.otpCodes
          (updateRateLimit s.rateLimits e
            (fun x => { x with requestCount := 1, firstRequestAt := now, lastRequestAt := now }))
    | none =>
      issueTail hash rand deliveryOk now newId e s.otpCodes
        (s.rateLimits ++ [{ email := e, requestCount := 1,
                            firstRequestAt := now, lastRequestAt := now }])

/-- One request handled by the core. -/
inductive CoreOp where
  | issue (hash : String → String) (rand : Nat) (deliveryOk : Bool)
      (now : Int) (newId : Nat) (email : String)
  | verify (hash : String → String) (downstreamOk : Bool) (now : Int)
      (email otp : String)

/-- The store after handling one request. -/
def applyOp (s : DbState) : CoreOp → DbState
  | .issue h r d n i e => (sendOtp h r d n i e s).2
  | .verify h d n e o => (verifyOtp h d n e o s).2

/-- The store after handling a sequence of requests. -/
def runOps (s : DbState) (ops : List CoreOp) : DbState := ops.foldl applyOp s

/-- Single-active-code invariant: no two rows of `otp_codes` are both
unused for the same identifier. -/
def atMostOneActive (codes : List OtpRecord) : Prop :=
  codes.Pairwise (fun a b => a.used = false → b.used = false → a.email ≠ b.email)

instance (codes : List OtpRecord) : Decidable (atMostOneActive codes) :=
  inferInstanceAs (Decidable (List.Pairwise _ codes))

/-- Attempt counters stay within `[0, MAX_VERIFICATION_ATTEMPTS]`. -/
def attemptsBounded (codes : List OtpRecord) : Bool :=
  codes.all (fun r => decide (r.attempts ≤ MAX_VERIFICATION_ATTEMPTS))

/-! ### Branch characterizations of the verify-otp handler -/

theorem verifyOtp_noRecord (hash : String → String) (d : Bool) (now : Int)
    (email otp : String) (s : DbState)
    (hE : isValidEmail email = true) (hO : isValidOTP otp = true)
    (hf : fetchActive s (normalizeEmail email) = none) :
    verifyOtp hash d now email otp s = (.invalidOrExpired, s) := by
  simp [verifyOtp, hE, hO, hf]

theorem verifyOtp_expired (hash : String → String) (d : Bool) (now : Int)
    (email otp : String) (s : DbState) (r : OtpRecord)
    (hE : isValidEmail email = true) (hO : isValidOTP otp = true)
    (hf : fetchActive s (normalizeEmail email) = some r)
    (hexp : now > r.expiresAt) :
    verifyOtp hash d now email otp s =
      (.expired, { s with otpCodes := markUsed s.otpCodes r.id }) := by
  simp [verifyOtp, hE, hO, hf, hexp]

theorem verifyOtp_locked (hash : String → String) (d : Bool) (now : Int)
    (email otp : String) (s : DbState) (r : OtpRecord)
    (hE : isValidEmail email = true) (hO : isValidOTP otp = true)
    (hf : fetchActive s (normalizeEmail email) = some r)
    (hexp : ¬ now > r.expiresAt) (hatt : r.attempts ≥ MAX_VERIFICATION_ATTEMPTS) :
    verifyOtp hash d now email otp s =
      (.tooManyAttempts, { s with otpCodes := markUsed s.otpCodes r.id }) := by
  simp [verifyOtp, hE, hO, hf, hexp, hatt]

theorem verifyOtp_mismatch (hash : String → String) (d : Bool) (now : Int)
    (email otp : String) (s : DbState) (r : OtpRecord)
    (hE : isValidEmail email = true) (hO : isValidOTP otp = true)
    (hf : fetchActive s (normalizeEmail email) = some r)
    (hexp : ¬ now > r.expiresAt) (hatt : r.attempts < MAX_VERIFICATION_ATTEMPTS)
    (hne : hash otp ≠ r.otpHash) :
    verifyOtp hash d now email otp s =
      (.invalidCode (MAX_VERIFICATION_ATTEMPTS - r.attempts - 1),
       { s with otpCodes := setAttempts s.otpCodes r.id (r.attempts + 1) }) := by
  have hge : ¬ r.attempts ≥ MAX_VERIFICATION_ATTEMPTS := Nat.not_le.mpr hatt
  simp [verifyOtp, hE, hO, hf, hexp, hge, hne]

theorem verifyOtp_match (hash : String → String) (d : Bool) (now : Int)
    (email otp : String) (s : DbState) (r : OtpRecord)
    (hE : isValidEmail email = true) (hO : isValidOTP otp = true)
    (hf : fetchActive s (normalizeEmail email) = some r)
    (hexp : ¬ now > r.expiresAt) (hatt : r.attempts < MAX_VERIFICATION_ATTEMPTS)
    (hmatch : hash otp = r.otpHash) :
    verifyOtp hash d now email otp s =
      (if d then VerifyResult.verified else .downstreamError,
       { otpCodes := markUsed s.otpCodes r.id,
         rateLimits := if d then
             s.rateLimits.filter (fun rl => rl.email != normalizeEmail email)
           else s.rateLimits }) := by
  have hge : ¬ r.attempts ≥ MAX_VERIFICATION_ATTEMPTS := Nat.not_le.mpr hatt
  cases d <;> simp [verifyOtp, hE, hO, hf, hexp, hge, hmatch]

/-! ### C9: syntactic validation rejects before any store access -/

/-- Claim C9: a request whose email fails syntactic validation (on Issue
or Verify) or whose code is not exactly six digits (on Verify) is
answered with HTTP 400 and the store is returned exactly as it was: no
rate-limit row and no code row is created or mutated. -/
theorem C9_validation_rejects_without_store_access
    (hash : String → String) (rand : Nat) (dOk dOk₂ dOk₃ : Bool)
    (now now₂ now₃ : Int) (newId : Nat)
    (emailBad emailOk otpAny otpBad : String) (s s₂ s₃ : DbState)
    (hE : isValidEmail emailBad = false)
    (hE₂ : isValidEmail emailOk = true)
    (hO : isValidOTP otpBad = false) :
    sendOtp hash rand dOk now newId emailBad s = (.invalidEmail, s) ∧
    issueHttpStatus (sendOtp hash rand dOk now newId emailBad s).1 = 400 ∧
    verifyOtp hash dOk₂ now₂ emailBad otpAny s₂ = (.invalidEmail, s₂) ∧
    verifyHttpStatus (verifyOtp hash dOk₂ now₂ emailBad otpAny s₂).1 = 400 ∧
    verifyOtp hash dOk₃ now₃ emailOk otpBad s₃ = (.invalidCodeFormat, s₃) ∧
    verifyHttpStatus (verifyOtp hash dOk₃ now₃ emailOk otpBad s₃).1 = 400 := by
  refine ⟨?_, ?_, ?_, ?_, ?_, ?_⟩ <;>
    simp [sendOtp, verifyOtp, hE, hE₂, hO, issueHttpStatus, verifyHttpStatus]

/-- Witness for C9 at the spec's own example inputs: `"not-an-email"` as
email and `"12a45"` as code. -/
theorem C9_validation_rejects_without_store_access_witness :
    isValidEmail "not-an-email" = false ∧
    isValidEmail "a@b.c" = true ∧
    isValidOTP "12a45" = false ∧
    (sendOtp (fun x => x) 0 true 0 1 "not-an-email" ⟨[], []⟩ =
      (.invalidEmail, ⟨[], []⟩) ∧
     issueHttpStatus (sendOtp (fun x => x) 0 true 0 1 "not-an-email" ⟨[], []⟩).1 = 400 ∧
     verifyOtp (fun x => x) true 0 "not-an-email" "123456" ⟨[], []⟩ =
      (.invalidEmail, ⟨[], []⟩) ∧
     verifyHttpStatus (verifyOtp (fun x => x) true 0 "not-an-email" "123456" ⟨[], []⟩).1 = 400 ∧
     verifyOtp (fun x => x) true 0 "a@b.c" "12a45" ⟨[], []⟩ =
      (.invalidCodeFormat, ⟨[], []⟩) ∧
     verifyHttpStatus (verifyOtp (fun x => x) true 0 "a@b.c" "12a45" ⟨[], []⟩).1 = 400) :=
  ⟨by decide, by decide, by decide,
   C9_validation_rejects_without_store_access (fun x => x) 0 true true true 0 0 0 1
     "not-an-email" "a@b.c" "123456" "12a45" ⟨[], []⟩ ⟨[], []⟩ ⟨[], []⟩
     (by decide) (by decide) (by decide)⟩

/-! ### C2: what the mismatch update does to the record -/

/-- Counterexample for claim C2.  The claim says the failed-attempt
update sets `used := true` in the same operation when the incremented
`attempts` value reaches 5.  Concretely: a record with `attempts = 4`
receives a wrong code; after the mismatch update the record has
`attempts = 5` but `used = false` — lockout is not applied by this
update. -/
theorem C2_counterexample :
    ∃ r ∈ (verifyOtp (fun x => x) true 500 "a@b.c" "111111"
            ⟨[⟨1, "a@b.c", "654321", 0, 1000, false, 4⟩], []⟩).2.otpCodes,
      r.attempts = 5 ∧ r.used = false := by decide

/-- Claim C2 as amended: the mismatch update increments the record's
attempts counter by exactly one and leaves every `used` flag unchanged,
even when the resulting value reaches the maximum (5); the lockout
(`used := true`) is not part of the failed-attempt update but is applied
by the `attempts ≥ 5` guard of a later verification call. -/
theorem C2_amended_increment_defers_lockout
    (hash : String → String) (d d₂ : Bool) (now now₂ : Int)
    (email otp email₂ otp₂ : String) (s s₂ : DbState) (r r₂ : OtpRecord)
    (hE : isValidEmail email = true) (hO : isValidOTP otp = true)
    (hf : fetchActive s (normalizeEmail email) = some r)
    (hexp : ¬ now > r.expiresAt) (hatt : r.attempts < MAX_VERIFICATION_ATTEMPTS)
    (hne : hash otp ≠ r.otpHash)
    (hE₂ : isValidEmail email₂ = true) (hO₂ : isValidOTP otp₂ = true)
    (hf₂ : fetchActive s₂ (normalizeEmail email₂) = some r₂)
    (hexp₂ : ¬ now₂ > r₂.expiresAt)
    (hatt₂ : r₂.attempts ≥ MAX_VERIFICATION_ATTEMPTS) :
    verifyOtp hash d now email otp s =
      (.invalidCode (MAX_VERIFICATION_ATTEMPTS - r.attempts - 1),
       { s with otpCodes := setAttempts s.otpCodes r.id (r.attempts + 1) }) ∧
    (verifyOtp hash d now email otp s).2.otpCodes.map (fun x => x.used) =
      s.otpCodes.map (fun x => x.used) ∧
    ((verifyOtp hash d now email otp s).2.otpCodes.all
      (fun x => x.id != r.id || x.attempts == r.attempts + 1)) = true ∧
    verifyOtp hash d₂ now₂ email₂ otp₂ s₂ =
      (.tooManyAttempts, { s₂ with otpCodes := markUsed s₂.otpCodes r₂.id }) := by
  have hmain := verifyOtp_mismatch hash d now email otp s r hE hO hf hexp hatt hne
  refine ⟨hmain, ?_, ?_, verifyOtp_locked hash d₂ now₂ email₂ otp₂ s₂ r₂ hE₂ hO₂ hf₂ hexp₂ hatt₂⟩
  · rw [hmain]
    simp only [setAttempts, List.map_map]
    refine List.map_congr_left ?_
    intro x _
    simp only [Function.comp_apply]
    split <;> rfl
  · rw [hmain]
    simp only [setAttempts, List.all_eq_true]
    intro x hx
    rw [List.mem_map] at hx
    obtain ⟨y, _, rfl⟩ := hx
    by_cases hy : y.id = r.id <;> simp [hy]

/-- Witness for the amended C2: a record at `attempts = 4` gets a wrong
code (reaching 5 with `used` still false), and a record at
`attempts = 5` is locked out on its next call. -/
theorem C2_amended_increment_defers_lockout_witness :
    isValidEmail "a@b.c" = true ∧ isValidOTP "111111" = true ∧
    fetchActive ⟨[⟨1, "a@b.c", "654321", 0, 1000, false, 4⟩], []⟩ (normalizeEmail "a@b.c") =
      some ⟨1, "a@b.c", "654321", 0, 1000, false, 4⟩ ∧
    fetchActive ⟨[⟨2, "a@b.c", "654321", 0, 1000, false, 5⟩], []⟩ (normalizeEmail "a@b.c") =
      some ⟨2, "a@b.c", "654321", 0, 1000, false, 5⟩ ∧
    (verifyOtp (fun x => x) true 500 "a@b.c" "111111"
        ⟨[⟨1, "a@b.c", "654321", 0, 1000, false, 4⟩], []⟩ =
      (.invalidCode 0, ⟨[⟨1, "a@b.c", "654321", 0, 1000, false, 5⟩], []⟩) ∧
     (verifyOtp (fun x => x) true 500 "a@b.c" "111111"
        ⟨[⟨1, "a@b.c", "654321", 0, 1000, false, 4⟩], []⟩).2.otpCodes.map (fun x => x.used) =
       [false] ∧
     ((verifyOtp (fun x => x) true 500 "a@b.c" "111111"
        ⟨[⟨1, "a@b.c", "654321", 0, 1000, false, 4⟩], []⟩).2.otpCodes.all
        (fun x => x.id != 1 || x.attempts == 5)) = true ∧
     verifyOtp (fun x => x) true 500 "a@b.c" "111111"
        ⟨[⟨2, "a@b.c", "654321", 0, 1000, false, 5⟩], []⟩ =
      (.tooManyAttempts, ⟨[⟨2, "a@b.c", "654321", 0, 1000, true, 5⟩], []⟩)) := by
  refine ⟨by decide, by decide, by decide, by decide, ?_⟩
  have h := C2_amended_increment_defers_lockout (fun x => x) true true 500 500
    "a@b.c" "111111" "a@b.c" "111111"
    ⟨[⟨1, "a@b.c", "654321", 0, 1000, false, 4⟩], []⟩
    ⟨[⟨2, "a@b.c", "654321", 0, 1000, false, 5⟩], []⟩
    ⟨1, "a@b.c", "654321", 0, 1000, false, 4⟩
    ⟨2, "a@b.c", "654321", 0, 1000, false, 5⟩
    (by decide) (by decide) (by decide) (by decide) (by decide) (by decide)
    (by decide) (by decide) (by decide) (by decide) (by decide)
  exact ⟨h.1, h.2.1, h.2.2.1, h.2.2.2⟩

/-! ### C3: the three failure conditions and their responses -/

/-- Counterexample for claim C3.  The claim says 'wrong code', 'no active
code' and 'expired code' all yield one identical merged message.  At
concrete inputs the three branches yield three pairwise different
message strings, so a caller can tell the conditions apart. -/
theorem C3_counterexample :
    verifyMessage (verifyOtp (fun x => x) true 500 "a@b.c" "123456" ⟨[], []⟩).1 ≠
      verifyMessage (verifyOtp (fun x => x) true 2000 "a@b.c" "123456"
        ⟨[⟨1, "a@b.c", "999999", 0, 1000, false, 0⟩], []⟩).1 ∧
    verifyMessage (verifyOtp (fun x => x) true 500 "a@b.c" "123456" ⟨[], []⟩).1 ≠
      verifyMessage (verifyOtp (fun x => x) true 500 "a@b.c" "123456"
        ⟨[⟨1, "a@b.c", "999999", 0, 1000, false, 0⟩], []⟩).1 ∧
    verifyMessage (verifyOtp (fun x => x) true 2000 "a@b.c" "123456"
        ⟨[⟨1, "a@b.c", "999999", 0, 1000, false, 0⟩], []⟩).1 ≠
      verifyMessage (verifyOtp (fun x => x) true 500 "a@b.c" "123456"
        ⟨[⟨1, "a@b.c", "999999", 0, 1000, false, 0⟩], []⟩).1 := by
  decide

/-- Claim C3 as amended: the three failure conditions all answer with
HTTP 400, but with three pairwise distinct messages — 'no active code'
answers "Invalid or expired verification code", 'expired' answers
"Verification code has expired. Please request a new one.", and 'wrong
code' answers "Invalid verification code" — so the response does reveal
which condition applied. -/
theorem C3_amended_distinct_messages
    (hash : String → String) (d₁ d₂ d₃ : Bool) (now₁ now₂ now₃ : Int)
    (email otp : String) (s₁ s₂ s₃ : DbState) (r₂ r₃ : OtpRecord)
    (hE : isValidEmail email = true) (hO : isValidOTP otp = true)
    (hf₁ : fetchActive s₁ (normalizeEmail email) = none)
    (hf₂ : fetchActive s₂ (normalizeEmail email) = some r₂)
    (hexp₂ : now₂ > r₂.expiresAt)
    (hf₃ : fetchActive s₃ (normalizeEmail email) = some r₃)
    (hexp₃ : ¬ now₃ > r₃.expiresAt)
    (hatt₃ : r₃.attempts < MAX_VERIFICATION_ATTEMPTS)
    (hne₃ : hash otp ≠ r₃.otpHash) :
    (verifyOtp hash d₁ now₁ email otp s₁).1 = .invalidOrExpired ∧
    (verifyOtp hash d₂ now₂ email otp s₂).1 = .expired ∧
    (verifyOtp hash d₃ now₃ email otp s₃).1 =
      .invalidCode (MAX_VERIFICATION_ATTEMPTS - r₃.attempts - 1) ∧
    verifyHttpStatus (verifyOtp hash d₁ now₁ email otp s₁).1 = 400 ∧
    verifyHttpStatus (verifyOtp hash d₂ now₂ email otp s₂).1 = 400 ∧
    verifyHttpStatus (verifyOtp hash d₃ now₃ email otp s₃).1 = 400 ∧
    verifyMessage (verifyOtp hash d₁ now₁ email otp s₁).1 ≠
      verifyMessage (verifyOtp hash d₂ now₂ email otp s₂).1 ∧
    verifyMessage (verifyOtp hash d₁ now₁ email otp s₁).1 ≠
      verifyMessage (verifyOtp hash d₃ now₃ email otp s₃).1 ∧
    verifyMessage (verifyOtp hash d₂ now₂ email otp s₂).1 ≠
      verifyMessage (verifyOtp hash d₃ now₃ email otp s₃).1 := by
  have h₁ := verifyOtp_noRecord hash d₁ now₁ email otp s₁ hE hO hf₁
  have h₂ := verifyOtp_expired hash d₂ now₂ email otp s₂ r₂ hE hO hf₂ hexp₂
  have h₃ := verifyOtp_mismatch hash d₃ now₃ email otp s₃ r₃ hE hO hf₃ hexp₃ hatt₃ hne₃
  rw [h₁, h₂, h₃]
  simp [verifyHttpStatus, verifyMessage]

/-- Witness for the amended C3 at concrete states realizing the three
conditions. -/
theorem C3_amended_distinct_messages_witness :
    isValidEmail "a@b.c" = true ∧ isValidOTP "123456" = true ∧
    fetchActive ⟨[], []⟩ (normalizeEmail "a@b.c") = none ∧
    fetchActive ⟨[⟨1, "a@b.c", "999999", 0, 1000, false, 0⟩], []⟩ (normalizeEmail "a@b.c") =
      some ⟨1, "a@b.c", "999999", 0, 1000, false, 0⟩ ∧
    ((verifyOtp (fun x => x) true 500 "a@b.c" "123456" ⟨[], []⟩).1 = .invalidOrExpired ∧
     (verifyOtp (fun x => x) true 2000 "a@b.c" "123456"
        ⟨[⟨1, "a@b.c", "999999", 0, 1000, false, 0⟩], []⟩).1 = .expired ∧
     (verifyOtp (fun x => x) true 500 "a@b.c" "123456"
        ⟨[⟨1, "a@b.c", "999999", 0, 1000, false, 0⟩], []⟩).1 = .invalidCode 4 ∧
     verifyHttpStatus (verifyOtp (fun x => x) true 500 "a@b.c" "123456" ⟨[], []⟩).1 = 400 ∧
     verifyHttpStatus ((verifyOtp (fun x => x) true 2000 "a@b.c" "123456"
        ⟨[⟨1, "a@b.c", "999999", 0, 1000, false, 0⟩], []⟩).1) = 400 ∧
     verifyHttpStatus ((verifyOtp (fun x => x) true 500 "a@b.c" "123456"
        ⟨[⟨1, "a@b.c", "999999", 0, 1000, false, 0⟩], []⟩).1) = 400 ∧
     verifyMessage (verifyOtp (fun x => x) true 500 "a@b.c" "123456" ⟨[], []⟩).1 ≠
       verifyMessage ((verifyOtp (fun x => x) true 2000 "a@b.c" "123456"
         ⟨[⟨1, "a@b.c", "999999", 0, 1000, false, 0⟩], []⟩).1) ∧
     verifyMessage (verifyOtp (fun x => x) true 500 "a@b.c" "123456" ⟨[], []⟩).1 ≠
       verifyMessage ((verifyOtp (fun x => x) true 500 "a@b.c" "123456"
         ⟨[⟨1, "a@b.c", "999999", 0, 1000, false, 0⟩], []⟩).1) ∧
     verifyMessage ((verifyOtp (fun x => x) true 2000 "a@b.c" "123456"
         ⟨[⟨1, "a@b.c", "999999", 0, 1000, false, 0⟩], []⟩).1) ≠
       verifyMessage ((verifyOtp (fun x => x) true 500 "a@b.c" "123456"
         ⟨[⟨1, "a@b.c", "999999", 0, 1000, false, 0⟩], []⟩).1)) :=
  ⟨by decide, by decide, by decide, by decide,
   C3_amended_distinct_messages (fun x => x) true true true 500 2000 500
     "a@b.c" "123456" ⟨[], []⟩
     ⟨[⟨1, "a@b.c", "999999", 0, 1000, false, 0⟩], []⟩
     ⟨[⟨1, "a@b.c", "999999", 0, 1000, false, 0⟩], []⟩
     ⟨1, "a@b.c", "999999", 0, 1000, false, 0⟩
     ⟨1, "a@b.c", "999999", 0, 1000, false, 0⟩
     (by decide) (by decide) (by decide) (by decide) (by decide) (by decide)
     (by decide) (by decide) (by decide)⟩

/-! ### C7: expiry is checked before attempts and before hashing -/

/-- Every row touched by `markUsed codes id` (those whose id matches) ends
with `used = true`. -/
theorem markUsed_marks (codes : List OtpRecord) (id : Nat) :
    ((markUsed codes id).all (fun x => x.id != id || x.used)) = true := by
  simp only [markUsed, List.all_eq_true]
  intro x hx
  rw [List.mem_map] at hx
  obtain ⟨y, _, rfl⟩ := hx
  by_cases hy : y.id = id <;> simp [hy]

/-- Claim C7: when `now` is strictly past the fetched record's
`expiresAt`, the handler marks the record used and rejects as expired —
for every attempts value, every submitted code (of valid format), and
every hash function; the outcome does not depend on the hash function at
all, so the hash comparison is never reached. -/
theorem C7_expiry_precedes_attempts_and_hashing
    (hash hash₂ : String → String) (d : Bool) (now : Int)
    (email otp : String) (s : DbState) (r : OtpRecord)
    (hE : isValidEmail email = true) (hO : isValidOTP otp = true)
    (hf : fetchActive s (normalizeEmail email) = some r)
    (hexp : now > r.expiresAt) :
    verifyOtp hash d now email otp s =
      (.expired, { s with otpCodes := markUsed s.otpCodes r.id }) ∧
    ((verifyOtp hash d now email otp s).2.otpCodes.all
      (fun x => x.id != r.id || x.used)) = true ∧
    verifyOtp hash d now email otp s = verifyOtp hash₂ d now email otp s := by
  have h₁ := verifyOtp_expired hash d now email otp s r hE hO hf hexp
  have h₂ := verifyOtp_expired hash₂ d now email otp s r hE hO hf hexp
  refine ⟨h₁, ?_, h₁.trans h₂.symm⟩
  rw [h₁]
  exact markUsed_marks s.otpCodes r.id

/-- Witness for C7: a record with `attempts = 0` whose correct plaintext
is submitted after expiry is still rejected as expired and marked used;
a second, different hash function yields the same outcome. -/
theorem C7_expiry_precedes_attempts_and_hashing_witness :
    isValidEmail "a@b.c" = true ∧ isValidOTP "999999" = true ∧
    fetchActive ⟨[⟨1, "a@b.c", "999999", 0, 1000, false, 0⟩], []⟩ (normalizeEmail "a@b.c") =
      some ⟨1, "a@b.c", "999999", 0, 1000, false, 0⟩ ∧
    ((2000 : Int) > 1000) ∧
    (verifyOtp (fun x => x) true 2000 "a@b.c" "999999"
        ⟨[⟨1, "a@b.c", "999999", 0, 1000, false, 0⟩], []⟩ =
      (.expired, ⟨[⟨1, "a@b.c", "999999", 0, 1000, true, 0⟩], []⟩) ∧
     ((verifyOtp (fun x => x) true 2000 "a@b.c" "999999"
        ⟨[⟨1, "a@b.c", "999999", 0, 1000, false, 0⟩], []⟩).2.otpCodes.all
        (fun x => x.id != 1 || x.used)) = true ∧
     verifyOtp (fun x => x) true 2000 "a@b.c" "999999"
        ⟨[⟨1, "a@b.c", "999999", 0, 1000, false, 0⟩], []⟩ =
      verifyOtp (fun _ => "other") true 2000 "a@b.c" "999999"
        ⟨[⟨1, "a@b.c", "999999", 0, 1000, false, 0⟩], []⟩) := by
  refine ⟨by decide, by decide, by decide, by decide, ?_⟩
  have h := C7_expiry_precedes_attempts_and_hashing (fun x => x) (fun _ => "other")
    true 2000 "a@b.c" "999999"
    ⟨[⟨1, "a@b.c", "999999", 0, 1000, false, 0⟩], []⟩
    ⟨1, "a@b.c", "999999", 0, 1000, false, 0⟩
    (by decide) (by decide) (by decide) (by decide)
  exact ⟨h.1, h.2.1, h.2.2⟩

/-! ### C4: range and distribution of generateOTP -/

theorem decDigitsAux_eq (fuel : Nat) :
    ∀ n, n ≤ fuel → decDigitsAux fuel n = Nat.digits 10 n := by
  induction fuel with
  | zero =>
    intro n hn
    have hn0 : n = 0 := Nat.le_zero.mp hn
    subst hn0
    simp [decDigitsAux]
  | succ fuel ih =>
    intro n hn
    cases n with
    | zero => simp [decDigitsAux]
    | succ m =>
      have hdiv : (m + 1) / 10 ≤ fuel := by
        have h1 : (m + 1) / 10 < m + 1 := Nat.div_lt_self (Nat.succ_pos m) (by norm_num)
        omega
      rw [show decDigitsAux (fuel + 1) (m + 1) =
            (m + 1) % 10 :: decDigitsAux fuel ((m + 1) / 10) from rfl,
        ih _ hdiv, ← Nat.digits_def' (b := 10) (by norm_num) (Nat.succ_pos m)]

theorem decDigits_eq (n : Nat) : decDigits n = Nat.digits 10 n :=
  decDigitsAux_eq n n le_rfl

theorem generateOTPVal_range (w : Nat) :
    100000 ≤ generateOTPVal w ∧ generateOTPVal w ≤ 999999 := by
  unfold generateOTPVal
  have := Nat.mod_lt w (show 0 < 900000 by norm_num)
  omega

/-- `generateOTP` always returns a six-character all-digit string, i.e. a
string accepted by `isValidOTP`. -/
theorem generateOTP_isValidOTP (w : Nat) : isValidOTP (generateOTP w) = true := by
  obtain ⟨hlo, hhi⟩ := generateOTPVal_range w
  set v := generateOTPVal w with hv
  have hv0 : v ≠ 0 := by omega
  have h5 : (10 : Nat) ^ 5 ≤ v := by norm_num; omega
  have h6 : v < (10 : Nat) ^ (5 + 1) := by norm_num; omega
  have hlen : (Nat.digits 10 v).length = 6 := by
    rw [Nat.digits_len 10 v (by norm_num) hv0, Nat.log_eq_of_pow_le_of_lt_pow h5 h6]
  have hchars : ∀ c ∈ decimalString v, c.isDigit = true := by
    intro c hc
    unfold decimalString at hc
    rw [List.mem_map] at hc
    obtain ⟨d, hd, rfl⟩ := hc
    rw [List.mem_reverse, decDigits_eq] at hd
    have hd10 : d < 10 := Nat.digits_lt_base (by norm_num) hd
    interval_cases d <;> decide
  unfold isValidOTP generateOTP
  have htl : (String.mk (decimalString v)).toList = decimalString v := rfl
  rw [htl]
  have hlen' : (decimalString v).length = 6 := by
    unfold decimalString
    rw [List.length_map, List.length_reverse, decDigits_eq, hlen]
  rw [hlen']
  simp only [List.all_eq_true, Bool.and_eq_true, decide_eq_true_eq]
  exact ⟨trivial, hchars⟩

/-- Number of 32-bit words that `generateOTP` maps to the numeric code
value `c`. -/
def preimageCount (c : Nat) : Nat := Nat.count (fun w => generateOTPVal w = c) (2 ^ 32)

/-- Exact preimage count of each code value: `2^32 = 4772 * 900000 +
167296`, so values whose residue `c - 100000` is below `167296` have one
extra 32-bit preimage. -/
theorem preimageCount_eq (c : Nat) (hc1 : 100000 ≤ c) (hc2 : c ≤ 999999) :
    preimageCount c = if c < 267296 then 4773 else 4772 := by
  have hres : (c - 100000) % 900000 = c - 100000 := Nat.mod_eq_of_lt (by omega)
  have hiff : ∀ w, (generateOTPVal w = c) ↔ (w ≡ (c - 100000) [MOD 900000]) := by
    intro w
    have hwlt := Nat.mod_lt w (show 0 < 900000 by norm_num)
    unfold generateOTPVal Nat.ModEq
    rw [hres]
    omega
  have hfilter : ((Finset.range (2 ^ 32)).filter (fun w => generateOTPVal w = c)) =
      ((Finset.range (2 ^ 32)).filter (· ≡ (c - 100000) [MOD 900000])) :=
    Finset.filter_congr (fun x _ => hiff x)
  have hcount : preimageCount c = Nat.count (· ≡ (c - 100000) [MOD 900000]) (2 ^ 32) := by
    unfold preimageCount
    rw [Nat.count_eq_card_filter_range, Nat.count_eq_card_filter_range, hfilter]
  rw [hcount, Nat.count_modEq_card _ (show (0 : Nat) < 900000 by norm_num)]
  have h1 : 2 ^ 32 / 900000 = 4772 := by norm_num
  have h2 : 2 ^ 32 % 900000 = 167296 := by norm_num
  rw [h1, h2, hres]
  by_cases h : c < 267296
  · rw [if_pos h, if_pos (by omega)]
  · rw [if_neg h, if_neg (by omega)]

/-- Counterexample for claim C4.  The claim asserts every 6-digit value
has the same number of 32-bit preimages under `w ↦ 100000 + (w %
900000)`.  In fact `2^32` is not a multiple of `900000`: the value
`100000` has 4773 preimages while `999999` has 4772. -/
theorem C4_counterexample :
    preimageCount 100000 = 4773 ∧ preimageCount 999999 = 4772 ∧
    preimageCount 100000 ≠ preimageCount 999999 := by
  have h1 := preimageCount_eq 100000 (by norm_num) (by norm_num)
  have h2 := preimageCount_eq 999999 (by norm_num) (by norm_num)
  rw [if_pos (by norm_num)] at h1
  rw [if_neg (by norm_num)] at h2
  exact ⟨h1, h2, by omega⟩

/-- Claim C4 as amended: `generateOTP` on any 32-bit word returns a
6-digit numeric string whose value lies in `[100000, 999999]`, but the
induced distribution is only near-uniform: values below `267296` have
`4773` preimages and the remaining values have `4772` (modulo bias,
since `2^32 = 4772 * 900000 + 167296`). -/
theorem C4_amended_sixdigit_near_uniform (w c : Nat)
    (hc1 : 100000 ≤ c) (hc2 : c ≤ 999999) :
    100000 ≤ generateOTPVal w ∧ generateOTPVal w ≤ 999999 ∧
    isValidOTP (generateOTP w) = true ∧
    preimageCount c = if c < 267296 then 4773 else 4772 :=
  ⟨(generateOTPVal_range w).1, (generateOTPVal_range w).2,
   generateOTP_isValidOTP w, preimageCount_eq c hc1 hc2⟩

/-- Witness for the amended C4 at `w = 4294967295` (the largest 32-bit
word) and `c = 123456`. -/
theorem C4_amended_sixdigit_near_uniform_witness :
    100000 ≤ (123456 : Nat) ∧ (123456 : Nat) ≤ 999999 ∧
    (100000 ≤ generateOTPVal 4294967295 ∧ generateOTPVal 4294967295 ≤ 999999 ∧
     isValidOTP (generateOTP 4294967295) = true ∧
     preimageCount 123456 = if (123456 : Nat) < 267296 then 4773 else 4772) :=
  ⟨by norm_num, by norm_num,
   C4_amended_sixdigit_near_uniform 4294967295 123456 (by norm_num) (by norm_num)⟩

/-! ### C5: the rate limiter -/

theorem sendOtp_noRow (hash : String → String) (rand : Nat) (dOk : Bool)
    (now : Int) (newId : Nat) (email : String) (s : DbState)
    (hE : isValidEmail email = true)
    (hfind : findRateLimit s.rateLimits (normalizeEmail email) = none) :
    sendOtp hash rand dOk now newId email s =
      issueTail hash rand dOk now newId (normalizeEmail email) s.otpCodes
        (s.rateLimits ++ [{ email := normalizeEmail email, requestCount := 1,
                            firstRequestAt := now, lastRequestAt := now }]) := by
  simp [sendOtp, hE, hfind]

theorem sendOtp_inWindow_below (hash : String → String) (rand : Nat) (dOk : Bool)
    (now : Int) (newId : Nat) (email : String) (s : DbState) (rl : RateLimitRow)
    (hE : isValidEmail email = true)
    (hfind : findRateLimit s.rateLimits (normalizeEmail email) = some rl)
    (hwin : rl.firstRequestAt > now - RATE_LIMIT_WINDOW_MS)
    (hcnt : rl.requestCount < MAX_REQUESTS_PER_WINDOW) :
    sendOtp hash rand dOk now newId email s =
      issueTail hash rand dOk now newId (normalizeEmail email) s.otpCodes
        (updateRateLimit s.rateLimits (normalizeEmail email)
          (fun x => { x with requestCount := rl.requestCount + 1, lastRequestAt := now })) := by
  have hge : ¬ rl.requestCount ≥ MAX_REQUESTS_PER_WINDOW := Nat.not_le.mpr hcnt
  simp [sendOtp, hE, hfind, hwin, hge]

theorem sendOtp_throttled (hash : String → String) (rand : Nat) (dOk : Bool)
    (now : Int) (newId : Nat) (email : String) (s : DbState) (rl : RateLimitRow)
    (hE : isValidEmail email = true)
    (hfind : findRateLimit s.rateLimits (normalizeEmail email) = some rl)
    (hwin : rl.firstRequestAt > now - RATE_LIMIT_WINDOW_MS)
    (hcnt : rl.requestCount ≥ MAX_REQUESTS_PER_WINDOW) :
    sendOtp hash rand dOk now newId email s =
      (.rateLimited (intCeilDiv (rl.firstRequestAt + RATE_LIMIT_WINDOW_MS - now) 1000), s) := by
  simp [sendOtp, hE, hfind, hwin, hcnt]

theorem sendOtp_windowElapsed (hash : String → String) (rand : Nat) (dOk : Bool)
    (now : Int) (newId : Nat) (email : String) (s : DbState) (rl : RateLimitRow)
    (hE : isValidEmail email = true)
    (hfind : findRateLimit s.rateLimits (normalizeEmail email) = some rl)
    (hwin : ¬ rl.firstRequestAt > now - RATE_LIMIT_WINDOW_MS) :
    sendOtp hash rand dOk now newId email s =
      issueTail hash rand dOk now newId (normalizeEmail email) s.otpCodes
        (updateRateLimit s.rateLimits (normalizeEmail email)
          (fun x =>
            { x with requestCount := 1, firstRequestAt := now, lastRequestAt := now })) := by
  simp [sendOtp, hE, hfind, hwin]

theorem issueTail_ok (hash : String → String) (rand : Nat) (now : Int)
    (newId : Nat) (e : String) (codes : List OtpRecord) (rls : List RateLimitRow) :
    issueTail hash rand true now newId e codes rls =
      (.issued 300,
       ⟨invalidateOutstanding codes e ++
          [{ id := newId, email := e, otpHash := hash (generateOTP rand),
             createdAt := now, expiresAt := now + OTP_EXPIRY_MS, used := false,
             attempts := 0 }], rls⟩) := by
  norm_num [issueTail, OTP_EXPIRY_MINUTES]

theorem intCeilDiv_pos (a : Int) (ha : 0 < a) : 0 < intCeilDiv a 1000 := by
  unfold intCeilDiv
  omega

/-- Claim C5: behaviour of the rate limiter across a full scenario.  For
any identifier, starting with no window row: the first Issue call is
allowed and creates the row with count 1; the second and third calls
within the window are allowed and increment the count; the fourth call
within the window is refused with
`retryAfterSeconds = ⌈((windowStart + windowLength) − now) / 1000⌉ > 0`
and mutates nothing (the whole store is returned unchanged); and a call
after the window has elapsed is allowed again with the count reset to 1
and the window start reset to now. -/
theorem C5_rate_limiter_window_scenario
    (hash : String → String) (r₁ r₂ r₃ r₄ r₅ i₁ i₂ i₃ i₄ i₅ : Nat)
    (email : String) (codes₀ : List OtpRecord) (t₁ t₂ t₃ t₄ t₅ : Int)
    (hE : isValidEmail email = true)
    (hw₂ : t₁ > t₂ - RATE_LIMIT_WINDOW_MS)
    (hw₃ : t₁ > t₃ - RATE_LIMIT_WINDOW_MS)
    (hw₄ : t₁ > t₄ - RATE_LIMIT_WINDOW_MS)
    (hw₅ : ¬ t₁ > t₅ - RATE_LIMIT_WINDOW_MS) :
    (sendOtp hash r₁ true t₁ i₁ email ⟨codes₀, []⟩).1 = .issued 300 ∧
    (sendOtp hash r₁ true t₁ i₁ email ⟨codes₀, []⟩).2.rateLimits =
      [⟨normalizeEmail email, 1, t₁, t₁⟩] ∧
    (sendOtp hash r₂ true t₂ i₂ email
      (sendOtp hash r₁ true t₁ i₁ email ⟨codes₀, []⟩).2).1 = .issued 300 ∧
    (sendOtp hash r₂ true t₂ i₂ email
      (sendOtp hash r₁ true t₁ i₁ email ⟨codes₀, []⟩).2).2.rateLimits =
      [⟨normalizeEmail email, 2, t₁, t₂⟩] ∧
    (sendOtp hash r₃ true t₃ i₃ email
      (sendOtp hash r₂ true t₂ i₂ email
        (sendOtp hash r₁ true t₁ i₁ email ⟨codes₀, []⟩).2).2).1 = .issued 300 ∧
    (sendOtp hash r₃ true t₃ i₃ email
      (sendOtp hash r₂ true t₂ i₂ email
        (sendOtp hash r₁ true t₁ i₁ email ⟨codes₀, []⟩).2).2).2.rateLimits =
      [⟨normalizeEmail email, 3, t₁, t₃⟩] ∧
    (sendOtp hash r₄ true t₄ i₄ email
      (sendOtp hash r₃ true t₃ i₃ email
        (sendOtp hash r₂ true t₂ i₂ email
          (sendOtp hash r₁ true t₁ i₁ email ⟨codes₀, []⟩).2).2).2) =
      (.rateLimited (intCeilDiv (t₁ + RATE_LIMIT_WINDOW_MS - t₄) 1000),
       (sendOtp hash r₃ true t₃ i₃ email
         (sendOtp hash r₂ true t₂ i₂ email
           (sendOtp hash r₁ true t₁ i₁ email ⟨codes₀, []⟩).2).2).2) ∧
    0 < intCeilDiv (t₁ + RATE_LIMIT_WINDOW_MS - t₄) 1000 ∧
    (sendOtp hash r₅ true t₅ i₅ email
      (sendOtp hash r₃ true t₃ i₃ email
        (sendOtp hash r₂ true t₂ i₂ email
          (sendOtp hash r₁ true t₁ i₁ email ⟨codes₀, []⟩).2).2).2).1 = .issued 300 ∧
    (sendOtp hash r₅ true t₅ i₅ email
      (sendOtp hash r₃ true t₃ i₃ email
        (sendOtp hash r₂ true t₂ i₂ email
          (sendOtp hash r₁ true t₁ i₁ email ⟨codes₀, []⟩).2).2).2).2.rateLimits =
      [⟨normalizeEmail email, 1, t₅, t₅⟩] := by
  have h₁ := (sendOtp_noRow hash r₁ true t₁ i₁ email ⟨codes₀, []⟩ hE
    (by simp [findRateLimit])).trans (issueTail_ok hash r₁ t₁ i₁ _ _ _)
  have hrl₁ : (sendOtp hash r₁ true t₁ i₁ email ⟨codes₀, []⟩).2.rateLimits =
      [⟨normalizeEmail email, 1, t₁, t₁⟩] := by rw [h₁]; rfl
  have hfind₂ : findRateLimit (sendOtp hash r₁ true t₁ i₁ email ⟨codes₀, []⟩).2.rateLimits
      (normalizeEmail email) = some ⟨normalizeEmail email, 1, t₁, t₁⟩ := by
    rw [hrl₁]; simp [findRateLimit]
  have h₂ := (sendOtp_inWindow_below hash r₂ true t₂ i₂ email _ _ hE hfind₂ hw₂
    (by norm_num [MAX_REQUESTS_PER_WINDOW])).trans (issueTail_ok hash r₂ t₂ i₂ _ _ _)
  have hrl₂ : (sendOtp hash r₂ true t₂ i₂ email
      (sendOtp hash r₁ true t₁ i₁ email ⟨codes₀, []⟩).2).2.rateLimits =
      [⟨normalizeEmail email, 2, t₁, t₂⟩] := by
    rw [h₂]
    show updateRateLimit (sendOtp hash r₁ true t₁ i₁ email ⟨codes₀, []⟩).2.rateLimits _ _ = _
    rw [hrl₁]; simp [updateRateLimit]
  have hfind₃ : findRateLimit ((sendOtp hash r₂ true t₂ i₂ email
      (sendOtp hash r₁ true t₁ i₁ email ⟨codes₀, []⟩).2).2.rateLimits)
      (normalizeEmail email) = some ⟨normalizeEmail email, 2, t₁, t₂⟩ := by
    rw [hrl₂]; simp [findRateLimit]
  have h₃ := (sendOtp_inWindow_below hash r₃ true t₃ i₃ email _ _ hE hfind₃ hw₃
    (by norm_num [MAX_REQUESTS_PER_WINDOW])).trans (issueTail_ok hash r₃ t₃ i₃ _ _ _)
  have hrl₃ : (sendOtp hash r₃ true t₃ i₃ email
      (sendOtp hash r₂ true t₂ i₂ email
        (sendOtp hash r₁ true t₁ i₁ email ⟨codes₀, []⟩).2).2).2.rateLimits =
      [⟨normalizeEmail email, 3, t₁, t₃⟩] := by
    rw [h₃]
    show updateRateLimit ((sendOtp hash r₂ true t₂ i₂ email
      (sendOtp hash r₁ true t₁ i₁ email ⟨codes₀, []⟩).2).2.rateLimits) _ _ = _
    rw [hrl₂]; simp [updateRateLimit]
  have hfind₄ : findRateLimit ((sendOtp hash r₃ true t₃ i₃ email
      (sendOtp hash r₂ true t₂ i₂ email
        (sendOtp hash r₁ true t₁ i₁ email ⟨codes₀, []⟩).2).2).2.rateLimits)
      (normalizeEmail email) = some ⟨normalizeEmail email, 3, t₁, t₃⟩ := by
    rw [hrl₃]; simp [findRateLimit]
  have h₄ := sendOtp_throttled hash r₄ true t₄ i₄ email _ _ hE hfind₄ hw₄
    (by norm_num [MAX_REQUESTS_PER_WINDOW])
  have h₅ := (sendOtp_windowElapsed hash r₅ true t₅ i₅ email _ _ hE hfind₄
    hw₅).trans (issueTail_ok hash r₅ t₅ i₅ _ _ _)
  refine ⟨by rw [h₁], hrl₁, by rw [h₂], hrl₂, by rw [h₃], hrl₃, h₄,
    intCeilDiv_pos _ (by unfold RATE_LIMIT_WINDOW_MS at hw₄ ⊢; omega), by rw [h₅], ?_⟩
  rw [h₅]
  show updateRateLimit ((sendOtp hash r₃ true t₃ i₃ email
    (sendOtp hash r₂ true t₂ i₂ email
      (sendOtp hash r₁ true t₁ i₁ email ⟨codes₀, []⟩).2).2).2.rateLimits) _ _ = _
  rw [hrl₃]; simp [updateRateLimit]

/-- Witness for C5 with a concrete identifier and concrete times: calls
at 0, 1, 2, 3 ms and a fifth call at 600000 ms (one full window later). -/
theorem C5_rate_limiter_window_scenario_witness :
    isValidEmail "a@b.c" = true ∧
    ((0 : Int) > 1 - RATE_LIMIT_WINDOW_MS) ∧
    ((0 : Int) > 2 - RATE_LIMIT_WINDOW_MS) ∧
    ((0 : Int) > 3 - RATE_LIMIT_WINDOW_MS) ∧
    ¬ ((0 : Int) > 600000 - RATE_LIMIT_WINDOW_MS) ∧
    ((sendOtp (fun x => x) 0 true 0 1 "a@b.c" ⟨[], []⟩).1 = .issued 300 ∧
     (sendOtp (fun x => x) 0 true 0 1 "a@b.c" ⟨[], []⟩).2.rateLimits =
       [⟨normalizeEmail "a@b.c", 1, 0, 0⟩] ∧
     (sendOtp (fun x => x) 0 true 1 2 "a@b.c"
       (sendOtp (fun x => x) 0 true 0 1 "a@b.c" ⟨[], []⟩).2).1 = .issued 300 ∧
     (sendOtp (fun x => x) 0 true 1 2 "a@b.c"
       (sendOtp (fun x => x) 0 true 0 1 "a@b.c" ⟨[], []⟩).2).2.rateLimits =
       [⟨normalizeEmail "a@b.c", 2, 0, 1⟩] ∧
     (sendOtp (fun x => x) 0 true 2 3 "a@b.c"
       (sendOtp (fun x => x) 0 true 1 2 "a@b.c"
         (sendOtp (fun x => x) 0 true 0 1 "a@b.c" ⟨[], []⟩).2).2).1 = .issued 300 ∧
     (sendOtp (fun x => x) 0 true 2 3 "a@b.c"
       (sendOtp (fun x => x) 0 true 1 2 "a@b.c"
         (sendOtp (fun x => x) 0 true 0 1 "a@b.c" ⟨[], []⟩).2).2).2.rateLimits =
       [⟨normalizeEmail "a@b.c", 3, 0, 2⟩] ∧
     (sendOtp (fun x => x) 0 true 3 4 "a@b.c"
       (sendOtp (fun x => x) 0 true 2 3 "a@b.c"
         (sendOtp (fun x => x) 0 true 1 2 "a@b.c"
           (sendOtp (fun x => x) 0 true 0 1 "a@b.c" ⟨[], []⟩).2).2).2) =
       (.rateLimited (intCeilDiv (0 + RATE_LIMIT_WINDOW_MS - 3) 1000),
        (sendOtp (fun x => x) 0 true 2 3 "a@b.c"
          (sendOtp (fun x => x) 0 true 1 2 "a@b.c"
            (sendOtp (fun x => x) 0 true 0 1 "a@b.c" ⟨[], []⟩).2).2).2) ∧
     0 < intCeilDiv (0 + RATE_LIMIT_WINDOW_MS - 3) 1000 ∧
     (sendOtp (fun x => x) 0 true 600000 5 "a@b.c"
       (sendOtp (fun x => x) 0 true 2 3 "a@b.c"
         (sendOtp (fun x => x) 0 true 1 2 "a@b.c"
           (sendOtp (fun x => x) 0 true 0 1 "a@b.c" ⟨[], []⟩).2).2).2).1 = .issued 300 ∧
     (sendOtp (fun x => x) 0 true 600000 5 "a@b.c"
       (sendOtp (fun x => x) 0 true 2 3 "a@b.c"
         (sendOtp (fun x => x) 0 true 1 2 "a@b.c"
           (sendOtp (fun x => x) 0 true 0 1 "a@b.c" ⟨[], []⟩).2).2).2).2.rateLimits =
       [⟨normalizeEmail "a@b.c", 1, 600000, 600000⟩]) :=
  ⟨by decide, by decide, by decide, by decide, by decide,
   C5_rate_limiter_window_scenario (fun x => x) 0 0 0 0 0 1 2 3 4 5 "a@b.c" []
     0 1 2 3 600000 (by decide) (by decide) (by decide) (by decide) (by decide)⟩

/-! ### C6: wrong attempts count up to lockout -/

theorem fetchActive_singleton (r : OtpRecord) (rls : List RateLimitRow) (e : String)
    (hmail : r.email = e) (huse : r.used = false) :
    fetchActive ⟨[r], rls⟩ e = some r := by
  simp [fetchActive, activeFor, pickLatest, hmail, huse]

theorem verifyOtp_mismatch_single (hash : String → String) (d : Bool) (now : Int)
    (email wrong : String) (r : OtpRecord) (rls : List RateLimitRow)
    (hE : isValidEmail email = true) (hO : isValidOTP wrong = true)
    (hmail : r.email = normalizeEmail email) (huse : r.used = false)
    (hexp : ¬ now > r.expiresAt) (hatt : r.attempts < MAX_VERIFICATION_ATTEMPTS)
    (hne : hash wrong ≠ r.otpHash) :
    verifyOtp hash d now email wrong ⟨[r], rls⟩ =
      (.invalidCode (MAX_VERIFICATION_ATTEMPTS - r.attempts - 1),
       ⟨[{ r with attempts := r.attempts + 1 }], rls⟩) := by
  have hf := fetchActive_singleton r rls (normalizeEmail email) hmail huse
  rw [verifyOtp_mismatch hash d now email wrong ⟨[r], rls⟩ r hE hO hf hexp hatt hne]
  simp [setAttempts]

theorem runOps_replicate_wrong (hash : String → String) (d : Bool) (now : Int)
    (email wrong : String)
    (hE : isValidEmail email = true) (hO : isValidOTP wrong = true) :
    ∀ (k : Nat) (r : OtpRecord) (rls : List RateLimitRow),
      r.email = normalizeEmail email → r.used = false → ¬ now > r.expiresAt →
      hash wrong ≠ r.otpHash → r.attempts + k ≤ MAX_VERIFICATION_ATTEMPTS →
      runOps ⟨[r], rls⟩ (List.replicate k (CoreOp.verify hash d now email wrong)) =
        ⟨[{ r with attempts := r.attempts + k }], rls⟩ := by
  intro k
  induction k with
  | zero => intro r rls _ _ _ _ _; rfl
  | succ k ih =>
    intro r rls hmail huse hexp hne hbound
    have hatt : r.attempts < MAX_VERIFICATION_ATTEMPTS := by
      unfold MAX_VERIFICATION_ATTEMPTS at hbound ⊢; omega
    have hstep := verifyOtp_mismatch_single hash d now email wrong r rls
      hE hO hmail huse hexp hatt hne
    have hfold : runOps ⟨[r], rls⟩
        (List.replicate (k + 1) (CoreOp.verify hash d now email wrong)) =
        runOps (verifyOtp hash d now email wrong ⟨[r], rls⟩).2
          (List.replicate k (CoreOp.verify hash d now email wrong)) := rfl
    rw [hfold, hstep]
    rw [ih { r with attempts := r.attempts + 1 } rls hmail huse hexp hne
      (by simp; omega)]
    simp [Nat.add_assoc, Nat.add_comm 1 k]

/-- Claim C6: starting from a fresh record (`attempts = 0`), each
verification call with a non-matching 6-digit code increments the
attempts counter by exactly one (after `k ≤ 5` wrong calls the counter
is exactly `k`), and after 5 wrong submissions the code is locked out: a
further Verify call is answered with TooManyAttempts (HTTP 429) and the
record is marked used — even when that call submits the correct
plaintext. -/
theorem C6_five_wrong_attempts_lock_out
    (hash : String → String) (d d₅ : Bool) (now now₅ : Int)
    (email wrong right : String) (r : OtpRecord) (rls : List RateLimitRow) (k : Nat)
    (hE : isValidEmail email = true) (hOw : isValidOTP wrong = true)
    (hOr : isValidOTP right = true)
    (hmail : r.email = normalizeEmail email) (huse : r.used = false)
    (hatt0 : r.attempts = 0)
    (hexp : ¬ now > r.expiresAt) (hexp₅ : ¬ now₅ > r.expiresAt)
    (hne : hash wrong ≠ r.otpHash) (_hmatch : hash right = r.otpHash)
    (hk : k ≤ MAX_VERIFICATION_ATTEMPTS) :
    runOps ⟨[r], rls⟩ (List.replicate k (CoreOp.verify hash d now email wrong)) =
      ⟨[{ r with attempts := k }], rls⟩ ∧
    verifyOtp hash d₅ now₅ email right
      (runOps ⟨[r], rls⟩
        (List.replicate MAX_VERIFICATION_ATTEMPTS (CoreOp.verify hash d now email wrong))) =
      (.tooManyAttempts, ⟨[{ r with attempts := MAX_VERIFICATION_ATTEMPTS, used := true }], rls⟩) ∧
    verifyHttpStatus .tooManyAttempts = 429 := by
  have hiterK := runOps_replicate_wrong hash d now email wrong hE hOw k r rls
    hmail huse hexp hne (by omega)
  have hiter5 := runOps_replicate_wrong hash d now email wrong hE hOw
    MAX_VERIFICATION_ATTEMPTS r rls hmail huse hexp hne (by omega)
  rw [hatt0] at hiterK hiter5
  rw [Nat.zero_add] at hiterK hiter5
  refine ⟨hiterK, ?_, rfl⟩
  rw [hiter5]
  have hf := fetchActive_singleton { r with attempts := MAX_VERIFICATION_ATTEMPTS } rls
    (normalizeEmail email) hmail huse
  rw [verifyOtp_locked hash d₅ now₅ email right _ _ hE hOr hf hexp₅ (by simp)]
  simp [markUsed]

/-- Witness for C6: a fresh record whose plaintext is `"654321"` receives
five wrong `"111111"` submissions (counter reaching exactly 5), after
which even `"654321"` itself is rejected with HTTP 429 and the record is
marked used. -/
theorem C6_five_wrong_attempts_lock_out_witness :
    isValidEmail "a@b.c" = true ∧ isValidOTP "111111" = true ∧
    isValidOTP "654321" = true ∧
    (runOps ⟨[⟨1, "a@b.c", "654321", 0, 1000, false, 0⟩], []⟩
        (List.replicate 5 (CoreOp.verify (fun x => x) true 500 "a@b.c" "111111")) =
      ⟨[⟨1, "a@b.c", "654321", 0, 1000, false, 5⟩], []⟩ ∧
     verifyOtp (fun x => x) true 500 "a@b.c" "654321"
       (runOps ⟨[⟨1, "a@b.c", "654321", 0, 1000, false, 0⟩], []⟩
         (List.replicate 5 (CoreOp.verify (fun x => x) true 500 "a@b.c" "111111"))) =
      (.tooManyAttempts, ⟨[⟨1, "a@b.c", "654321", 0, 1000, true, 5⟩], []⟩) ∧
     verifyHttpStatus .tooManyAttempts = 429) :=
  ⟨by decide, by decide, by decide,
   C6_five_wrong_attempts_lock_out (fun x => x) true true 500 500
     "a@b.c" "111111" "654321" ⟨1, "a@b.c", "654321", 0, 1000, false, 0⟩ [] 5
     (by decide) (by decide) (by decide) (by decide) (by decide) (by decide)
     (by decide) (by decide) (by decide) (by decide) (by decide)⟩

/-! ### C1: consumption before downstream work, no replay -/

theorem activeFor_iff (e : String) (r : OtpRecord) :
    activeFor e r = true ↔ (r.email = e ∧ r.used = false) := by
  simp [activeFor]

theorem pickLatest_mem : ∀ (l : List OtpRecord) (r : OtpRecord),
    pickLatest l = some r → r ∈ l := by
  intro l
  induction l with
  | nil => intro r h; simp [pickLatest] at h
  | cons a l ih =>
    intro r h
    rw [pickLatest] at h
    split at h
    · injection h with h
      exact h ▸ List.mem_cons_self a l
    · rename_i b hpl
      split at h
      · injection h with h
        exact h ▸ List.mem_cons_of_mem a (ih b hpl)
      · injection h with h
        exact h ▸ List.mem_cons_self a l

theorem fetchActive_mem_filter (s : DbState) (e : String) (r : OtpRecord)
    (hf : fetchActive s e = some r) : r ∈ s.otpCodes.filter (activeFor e) :=
  pickLatest_mem _ r hf

theorem fetchActive_facts (s : DbState) (e : String) (r : OtpRecord)
    (hf : fetchActive s e = some r) :
    r ∈ s.otpCodes ∧ r.email = e ∧ r.used = false := by
  have hm := fetchActive_mem_filter s e r hf
  rw [List.mem_filter] at hm
  exact ⟨hm.1, ((activeFor_iff e r).mp hm.2).1, ((activeFor_iff e r).mp hm.2).2⟩

theorem atMostOneActive_filter_le (codes : List OtpRecord) (e : String)
    (h : atMostOneActive codes) : (codes.filter (activeFor e)).length ≤ 1 := by
  induction codes with
  | nil => simp
  | cons a l ih =>
    rw [atMostOneActive, List.pairwise_cons] at h
    obtain ⟨ha, hl⟩ := h
    by_cases hc : activeFor e a = true
    · rw [List.filter_cons_of_pos hc]
      have hnil : l.filter (activeFor e) = [] := by
        rw [List.filter_eq_nil_iff]
        intro b hb hbc
        obtain ⟨hae, hau⟩ := (activeFor_iff e a).mp hc
        obtain ⟨hbe, hbu⟩ := (activeFor_iff e b).mp hbc
        exact ha b hb hau hbu (hae.trans hbe.symm)
      rw [hnil]
      exact le_rfl
    · rw [List.filter_cons_of_neg hc]
      exact ih hl

theorem eq_of_mem_of_length_le_one {α : Type} {l : List α} (h : l.length ≤ 1)
    {x y : α} (hx : x ∈ l) (hy : y ∈ l) : x = y := by
  match l with
  | [] => exact absurd hx (List.not_mem_nil x)
  | [a] =>
    rw [List.mem_singleton] at hx hy
    rw [hx, hy]
  | a :: b :: t => simp at h

theorem filter_markUsed_nil (codes : List OtpRecord) (e : String) (r : OtpRecord)
    (hmem : r ∈ codes.filter (activeFor e))
    (hlen : (codes.filter (activeFor e)).length ≤ 1) :
    (markUsed codes r.id).filter (activeFor e) = [] := by
  rw [List.filter_eq_nil_iff]
  intro x hx hxc
  unfold markUsed at hx
  rw [List.mem_map] at hx
  obtain ⟨y, hy, rfl⟩ := hx
  by_cases hid : y.id = r.id
  · rw [if_pos hid] at hxc
    have := (activeFor_iff e _).mp hxc
    simp at this
  · rw [if_neg hid] at hxc
    have hyf : y ∈ codes.filter (activeFor e) := by
      rw [List.mem_filter]
      exact ⟨hy, hxc⟩
    exact hid (congrArg OtpRecord.id (eq_of_mem_of_length_le_one hlen hyf hmem))

/-- Claim C1: on a hash match the record is consumed (`used := true`)
before — and irrespective of — the downstream account-resolution and
session-minting work: the stored codes after the call are
`markUsed s.otpCodes r.id` whether the downstream step succeeds or
fails.  Consequently a later verification with the same plaintext for
that identifier finds no active record (the fetch only considers rows
with `used = false`, and any record a fetch returns is unused) and is
rejected with InvalidOrExpired. -/
theorem C1_consume_before_downstream_no_replay
    (hash : String → String) (d d₂ : Bool) (now now₂ : Int)
    (email otp : String) (s sx : DbState) (r rx : OtpRecord) (ex : String)
    (hE : isValidEmail email = true) (hO : isValidOTP otp = true)
    (hf : fetchActive s (normalizeEmail email) = some r)
    (hexp : ¬ now > r.expiresAt) (hatt : r.attempts < MAX_VERIFICATION_ATTEMPTS)
    (hmatch : hash otp = r.otpHash)
    (hinv : atMostOneActive s.otpCodes)
    (hfx : fetchActive sx ex = some rx) :
    (verifyOtp hash d now email otp s).2.otpCodes = markUsed s.otpCodes r.id ∧
    ((verifyOtp hash d now email otp s).2.otpCodes.all
      (fun x => x.id != r.id || x.used)) = true ∧
    (verifyOtp hash d now email otp s).1 =
      (if d then VerifyResult.verified else .downstreamError) ∧
    (verifyOtp hash d₂ now₂ email otp (verifyOtp hash d now email otp s).2).1 =
      .invalidOrExpired ∧
    rx.used = false := by
  have hrun := verifyOtp_match hash d now email otp s r hE hO hf hexp hatt hmatch
  have hcodes : (verifyOtp hash d now email otp s).2.otpCodes =
      markUsed s.otpCodes r.id := by rw [hrun]
  have hres : (verifyOtp hash d now email otp s).1 =
      (if d then VerifyResult.verified else .downstreamError) := by rw [hrun]
  have hnil := filter_markUsed_nil s.otpCodes (normalizeEmail email) r
    (fetchActive_mem_filter s (normalizeEmail email) r hf)
    (atMostOneActive_filter_le s.otpCodes (normalizeEmail email) hinv)
  have hf₂ : fetchActive (verifyOtp hash d now email otp s).2 (normalizeEmail email) =
      none := by
    unfold fetchActive
    rw [hcodes, hnil]
    rfl
  have hreplay := verifyOtp_noRecord hash d₂ now₂ email otp
    (verifyOtp hash d now email otp s).2 hE hO hf₂
  refine ⟨hcodes, ?_, hres, by rw [hreplay], (fetchActive_facts sx ex rx hfx).2.2⟩
  rw [hcodes]
  exact markUsed_marks s.otpCodes r.id

/-- Witness for C1: a correct code is consumed; the identical replay is
rejected with InvalidOrExpired. -/
theorem C1_consume_before_downstream_no_replay_witness :
    isValidEmail "a@b.c" = true ∧ isValidOTP "654321" = true ∧
    fetchActive ⟨[⟨1, "a@b.c", "654321", 0, 1000, false, 0⟩], []⟩ (normalizeEmail "a@b.c") =
      some ⟨1, "a@b.c", "654321", 0, 1000, false, 0⟩ ∧
    atMostOneActive [⟨1, "a@b.c", "654321", 0, 1000, false, 0⟩] ∧
    ((verifyOtp (fun x => x) true 500 "a@b.c" "654321"
        ⟨[⟨1, "a@b.c", "654321", 0, 1000, false, 0⟩], []⟩).2.otpCodes =
      markUsed [⟨1, "a@b.c", "654321", 0, 1000, false, 0⟩] 1 ∧
     ((verifyOtp (fun x => x) true 500 "a@b.c" "654321"
        ⟨[⟨1, "a@b.c", "654321", 0, 1000, false, 0⟩], []⟩).2.otpCodes.all
        (fun x => x.id != 1 || x.used)) = true ∧
     (verifyOtp (fun x => x) true 500 "a@b.c" "654321"
        ⟨[⟨1, "a@b.c", "654321", 0, 1000, false, 0⟩], []⟩).1 =
       (if true then VerifyResult.verified else .downstreamError) ∧
     (verifyOtp (fun x => x) false 600 "a@b.c" "654321"
       (verifyOtp (fun x => x) true 500 "a@b.c" "654321"
         ⟨[⟨1, "a@b.c", "654321", 0, 1000, false, 0⟩], []⟩).2).1 = .invalidOrExpired ∧
     (⟨1, "a@b.c", "654321", 0, 1000, false, 0⟩ : OtpRecord).used = false) :=
  ⟨by decide, by decide, by decide, by decide,
   C1_consume_before_downstream_no_replay (fun x => x) true false 500 600
     "a@b.c" "654321" ⟨[⟨1, "a@b.c", "654321", 0, 1000, false, 0⟩], []⟩
     ⟨[⟨1, "a@b.c", "654321", 0, 1000, false, 0⟩], []⟩
     ⟨1, "a@b.c", "654321", 0, 1000, false, 0⟩
     ⟨1, "a@b.c", "654321", 0, 1000, false, 0⟩ (normalizeEmail "a@b.c")
     (by decide) (by decide) (by decide) (by decide) (by decide) (by decide)
     (by decide) (by decide)⟩

/-! ### C8 and C10: store invariants over arbitrary operation sequences -/

theorem issueTail_otpCodes (hash : String → String) (rand : Nat) (dOk : Bool)
    (now : Int) (newId : Nat) (e : String) (codes : List OtpRecord)
    (rls : List RateLimitRow) :
    (issueTail hash rand dOk now newId e codes rls).2.otpCodes =
      invalidateOutstanding codes e ++
        [{ id := newId, email := e, otpHash := hash (generateOTP rand),
           createdAt := now, expiresAt := now + OTP_EXPIRY_MS, used := false,
           attempts := 0 }] := by
  unfold issueTail
  split <;> rfl

theorem sendOtp_otpCodes (hash : String → String) (rand : Nat) (dOk : Bool)
    (now : Int) (newId : Nat) (email : String) (s : DbState) :
    (sendOtp hash rand dOk now newId email s).2.otpCodes = s.otpCodes ∨
    (sendOtp hash rand dOk now newId email s).2.otpCodes =
      invalidateOutstanding s.otpCodes (normalizeEmail email) ++
        [{ id := newId, email := normalizeEmail email,
           otpHash := hash (generateOTP rand), createdAt := now,
           expiresAt := now + OTP_EXPIRY_MS, used := false, attempts := 0 }] := by
  unfold sendOtp
  dsimp only
  split
  · left; rfl
  · split
    · split
      · split
        · left; rfl
        · right; rw [issueTail_otpCodes]
      · right; rw [issueTail_otpCodes]
    · right; rw [issueTail_otpCodes]

theorem verifyOtp_otpCodes (hash : String → String) (d : Bool) (now : Int)
    (email otp : String) (s : DbState) :
    (verifyOtp hash d now email otp s).2.otpCodes = s.otpCodes ∨
    (∃ id, (verifyOtp hash d now email otp s).2.otpCodes = markUsed s.otpCodes id) ∨
    (∃ id n, n ≤ MAX_VERIFICATION_ATTEMPTS ∧
      (verifyOtp hash d now email otp s).2.otpCodes = setAttempts s.otpCodes id n) := by
  unfold verifyOtp
  dsimp only
  split
  · left; rfl
  · split
    · left; rfl
    · split
      · left; rfl
      · rename_i r _
        split
        · right; left; exact ⟨r.id, rfl⟩
        · split
          · right; left; exact ⟨r.id, rfl⟩
          · split
            · rename_i hnotmax _
              right; right
              refine ⟨r.id, r.attempts + 1, ?_, rfl⟩
              unfold MAX_VERIFICATION_ATTEMPTS at hnotmax ⊢
              omega
            · split
              · right; left; exact ⟨r.id, rfl⟩
              · right; left; exact ⟨r.id, rfl⟩

theorem atMostOneActive_map (codes : List OtpRecord) (f : OtpRecord → OtpRecord)
    (hf : ∀ x, (f x).used = false → ((f x).email = x.email ∧ x.used = false))
    (h : atMostOneActive codes) : atMostOneActive (codes.map f) := by
  refine List.Pairwise.map f ?_ h
  intro a b hab h1 h2
  obtain ⟨hea, hua⟩ := hf a h1
  obtain ⟨heb, hub⟩ := hf b h2
  rw [hea, heb]
  exact hab hua hub

theorem atMostOneActive_markUsed (codes : List OtpRecord) (id : Nat)
    (h : atMostOneActive codes) : atMostOneActive (markUsed codes id) := by
  refine atMostOneActive_map codes _ ?_ h
  intro x hx
  by_cases hid : x.id = id
  · rw [if_pos hid] at hx
    simp at hx
  · rw [if_neg hid] at hx ⊢
    exact ⟨rfl, hx⟩

theorem atMostOneActive_setAttempts (codes : List OtpRecord) (id n : Nat)
    (h : atMostOneActive codes) : atMostOneActive (setAttempts codes id n) := by
  refine atMostOneActive_map codes _ ?_ h
  intro x hx
  by_cases hid : x.id = id
  · rw [if_pos hid] at hx ⊢
    exact ⟨rfl, hx⟩
  · rw [if_neg hid] at hx ⊢
    exact ⟨rfl, hx⟩

theorem invalidateOutstanding_active_email (codes : List OtpRecord) (e : String) :
    ∀ a ∈ invalidateOutstanding codes e, a.used = false → a.email ≠ e := by
  intro a ha hu
  unfold invalidateOutstanding at ha
  rw [List.mem_map] at ha
  obtain ⟨y, _, rfl⟩ := ha
  by_cases hc : (y.email == e && !y.used) = true
  · rw [if_pos hc] at hu
    simp at hu
  · rw [if_neg hc] at hu ⊢
    intro he
    exact hc (by simp [he, hu])

theorem atMostOneActive_invalidate_insert (codes : List OtpRecord) (e : String)
    (newRec : OtpRecord) (hnew : newRec.email = e)
    (h : atMostOneActive codes) :
    atMostOneActive (invalidateOutstanding codes e ++ [newRec]) := by
  rw [atMostOneActive, List.pairwise_append]
  refine ⟨?_, List.pairwise_singleton _ _, ?_⟩
  · refine atMostOneActive_map codes _ ?_ h
    intro x hx
    by_cases hc : (x.email == e && !x.used) = true
    · rw [if_pos hc] at hx
      simp at hx
    · rw [if_neg hc] at hx ⊢
      exact ⟨rfl, hx⟩
  · intro a ha b hb h1 _
    rw [List.mem_singleton] at hb
    subst hb
    rw [hnew]
    exact invalidateOutstanding_active_email codes e a ha h1

theorem atMostOneActive_applyOp (s : DbState) (op : CoreOp)
    (h : atMostOneActive s.otpCodes) : atMostOneActive (applyOp s op).otpCodes := by
  cases op with
  | issue hash rand dOk now newId email =>
    show atMostOneActive (sendOtp hash rand dOk now newId email s).2.otpCodes
    rcases sendOtp_otpCodes hash rand dOk now newId email s with hc | hc <;> rw [hc]
    · exact h
    · exact atMostOneActive_invalidate_insert s.otpCodes (normalizeEmail email) _ rfl h
  | verify hash d now email otp =>
    show atMostOneActive (verifyOtp hash d now email otp s).2.otpCodes
    rcases verifyOtp_otpCodes hash d now email otp s with hc | ⟨id, hc⟩ | ⟨id, n, _, hc⟩ <;>
      rw [hc]
    · exact h
    · exact atMostOneActive_markUsed s.otpCodes id h
    · exact atMostOneActive_setAttempts s.otpCodes id n h

theorem atMostOneActive_runOps : ∀ (ops : List CoreOp) (s : DbState),
    atMostOneActive s.otpCodes → atMostOneActive (runOps s ops).otpCodes := by
  intro ops
  induction ops with
  | nil => intro s h; exact h
  | cons op ops ih =>
    intro s h
    exact ih (applyOp s op) (atMostOneActive_applyOp s op h)

theorem invalidateOutstanding_marks (codes : List OtpRecord) (e : String) :
    ((invalidateOutstanding codes e).all (fun x => x.email != e || x.used)) = true := by
  rw [List.all_eq_true]
  intro x hx
  unfold invalidateOutstanding at hx
  rw [List.mem_map] at hx
  obtain ⟨y, _, rfl⟩ := hx
  by_cases hc : (y.email == e && !y.used) = true
  · rw [if_pos hc]
    simp
  · rw [if_neg hc]
    rw [Bool.and_eq_true, Bool.not_eq_true'] at hc
    by_cases he : y.email = e
    · have hy : y.used = true := by
        by_cases hu : y.used = true
        · exact hu
        · have huf : y.used = false := by revert hu; cases y.used <;> simp
          exact absurd ⟨by simp [he], huf⟩ hc
      simp [hy]
    · simp [bne_iff_ne, he]

/-- Claim C8: the single-active-code invariant (no two unused rows for
the same identifier) is preserved by every core operation, hence by any
sequence of issuance and verification requests; and a successful
issuance (here: the fresh-identifier case) first marks all outstanding
rows for the identifier used and only then appends the single new row
with `used = false` and `attempts = 0`. -/
theorem C8_single_active_code_invariant
    (ops : List CoreOp) (s : DbState)
    (hash : String → String) (rand : Nat) (dOk : Bool) (now : Int)
    (newId : Nat) (email : String) (s₂ : DbState)
    (hinv : atMostOneActive s.otpCodes)
    (hE : isValidEmail email = true)
    (hfind : findRateLimit s₂.rateLimits (normalizeEmail email) = none) :
    atMostOneActive (runOps s ops).otpCodes ∧
    (sendOtp hash rand dOk now newId email s₂).2.otpCodes =
      invalidateOutstanding s₂.otpCodes (normalizeEmail email) ++
        [{ id := newId, email := normalizeEmail email,
           otpHash := hash (generateOTP rand), createdAt := now,
           expiresAt := now + OTP_EXPIRY_MS, used := false, attempts := 0 }] ∧
    ((invalidateOutstanding s₂.otpCodes (normalizeEmail email)).all
      (fun x => x.email != normalizeEmail email || x.used)) = true := by
  refine ⟨atMostOneActive_runOps ops s hinv, ?_,
    invalidateOutstanding_marks s₂.otpCodes (normalizeEmail email)⟩
  rw [sendOtp_noRow hash rand dOk now newId email s₂ hE hfind, issueTail_otpCodes]

/-- Witness for C8: a two-step sequence (issue then verify) from a state
already holding one active row keeps the invariant; the issuance shape
is exhibited on a state with one outstanding active row. -/
theorem C8_single_active_code_invariant_witness :
    atMostOneActive [⟨1, "a@b.c", "654321", 0, 1000, false, 0⟩] ∧
    isValidEmail "a@b.c" = true ∧
    findRateLimit ([] : List RateLimitRow) (normalizeEmail "a@b.c") = none ∧
    (atMostOneActive (runOps ⟨[⟨1, "a@b.c", "654321", 0, 1000, false, 0⟩], []⟩
        [CoreOp.issue (fun x => x) 0 true 100 2 "a@b.c",
         CoreOp.verify (fun x => x) true 200 "a@b.c" "111111"]).otpCodes ∧
     (sendOtp (fun x => x) 0 true 100 2 "a@b.c"
        ⟨[⟨1, "a@b.c", "654321", 0, 1000, false, 0⟩], []⟩).2.otpCodes =
       invalidateOutstanding [⟨1, "a@b.c", "654321", 0, 1000, false, 0⟩]
           (normalizeEmail "a@b.c") ++
         [{ id := 2, email := normalizeEmail "a@b.c",
            otpHash := (fun x => x) (generateOTP 0), createdAt := 100,
            expiresAt := 100 + OTP_EXPIRY_MS, used := false, attempts := 0 }] ∧
     ((invalidateOutstanding [⟨1, "a@b.c", "654321", 0, 1000, false, 0⟩]
        (normalizeEmail "a@b.c")).all
        (fun x => x.email != normalizeEmail "a@b.c" || x.used)) = true) :=
  ⟨by decide, by decide, by decide,
   C8_single_active_code_invariant
     [CoreOp.issue (fun x => x) 0 true 100 2 "a@b.c",
      CoreOp.verify (fun x => x) true 200 "a@b.c" "111111"]
     ⟨[⟨1, "a@b.c", "654321", 0, 1000, false, 0⟩], []⟩
     (fun x => x) 0 true 100 2 "a@b.c"
     ⟨[⟨1, "a@b.c", "654321", 0, 1000, false, 0⟩], []⟩
     (by decide) (by decide) (by decide)⟩

theorem attemptsBounded_map (codes : List OtpRecord) (f : OtpRecord → OtpRecord)
    (hf : ∀ x, x.attempts ≤ MAX_VERIFICATION_ATTEMPTS →
      (f x).attempts ≤ MAX_VERIFICATION_ATTEMPTS)
    (h : attemptsBounded codes = true) : attemptsBounded (codes.map f) = true := by
  rw [attemptsBounded, List.all_eq_true] at h ⊢
  intro x hx
  rw [List.mem_map] at hx
  obtain ⟨y, hy, rfl⟩ := hx
  exact decide_eq_true (hf y (of_decide_eq_true (h y hy)))

theorem attemptsBounded_applyOp (s : DbState) (op : CoreOp)
    (h : attemptsBounded s.otpCodes = true) :
    attemptsBounded (applyOp s op).otpCodes = true := by
  cases op with
  | issue hash rand dOk now newId email =>
    show attemptsBounded (sendOtp hash rand dOk now newId email s).2.otpCodes = true
    rcases sendOtp_otpCodes hash rand dOk now newId email s with hc | hc <;> rw [hc]
    · exact h
    · rw [attemptsBounded, List.all_append, Bool.and_eq_true]
      exact ⟨attemptsBounded_map s.otpCodes _
        (fun x hx => by split <;> exact hx) h, by simp [MAX_VERIFICATION_ATTEMPTS]⟩
  | verify hash d now email otp =>
    show attemptsBounded (verifyOtp hash d now email otp s).2.otpCodes = true
    rcases verifyOtp_otpCodes hash d now email otp s with hc | ⟨id, hc⟩ | ⟨id, n, hn, hc⟩ <;>
      rw [hc]
    · exact h
    · exact attemptsBounded_map s.otpCodes _
        (fun x hx => by split <;> exact hx) h
    · refine attemptsBounded_map s.otpCodes _ (fun x hx => ?_) h
      by_cases hid : x.id = id
      · rw [if_pos hid]
        exact hn
      · rw [if_neg hid]
        exact hx

theorem attemptsBounded_runOps : ∀ (ops : List CoreOp) (s : DbState),
    attemptsBounded s.otpCodes = true → attemptsBounded (runOps s ops).otpCodes = true := by
  intro ops
  induction ops with
  | nil => intro s h; exact h
  | cons op ops ih =>
    intro s h
    exact ih (applyOp s op) (attemptsBounded_applyOp s op h)

/-- Claim C10: the attempts counter of every code row stays in
`[0, 5]` across any sequence of core operations: issuance inserts rows
with `attempts = 0` (exhibited for the fresh-identifier issuance), and
the verification handler writes an incremented counter only from a
record that passed the `attempts < 5` guard, so no row ever exceeds the
maximum. -/
theorem C10_attempts_counter_bounded
    (ops : List CoreOp) (s : DbState)
    (hash : String → String) (rand : Nat) (dOk : Bool) (now : Int)
    (newId : Nat) (email : String) (s₂ : DbState)
    (hb : attemptsBounded s.otpCodes = true)
    (hE : isValidEmail email = true)
    (hfind : findRateLimit s₂.rateLimits (normalizeEmail email) = none) :
    attemptsBounded (runOps s ops).otpCodes = true ∧
    (sendOtp hash rand dOk now newId email s₂).2.otpCodes =
      invalidateOutstanding s₂.otpCodes (normalizeEmail email) ++
        [{ id := newId, email := normalizeEmail email,
           otpHash := hash (generateOTP rand), createdAt := now,
           expiresAt := now + OTP_EXPIRY_MS, used := false, attempts := 0 }] := by
  refine ⟨attemptsBounded_runOps ops s hb, ?_⟩
  rw [sendOtp_noRow hash rand dOk now newId email s₂ hE hfind, issueTail_otpCodes]

/-- Witness for C10: the bound holds after an issue-then-verify sequence
starting from a state with one record at the maximal counter value. -/
theorem C10_attempts_counter_bounded_witness :
    attemptsBounded [⟨1, "a@b.c", "654321", 0, 1000, false, 5⟩] = true ∧
    isValidEmail "a@b.c" = true ∧
    findRateLimit ([] : List RateLimitRow) (normalizeEmail "a@b.c") = none ∧
    (attemptsBounded (runOps ⟨[⟨1, "a@b.c", "654321", 0, 1000, false, 5⟩], []⟩
        [CoreOp.issue (fun x => x) 0 true 100 2 "a@b.c",
         CoreOp.verify (fun x => x) true 200 "a@b.c" "111111"]).otpCodes = true ∧
     (sendOtp (fun x => x) 0 true 100 2 "a@b.c"
        ⟨[⟨1, "a@b.c", "654321", 0, 1000, false, 5⟩], []⟩).2.otpCodes =
       invalidateOutstanding [⟨1, "a@b.c", "654321", 0, 1000, false, 5⟩]
           (normalizeEmail "a@b.c") ++
         [{ id := 2, email := normalizeEmail "a@b.c",
            otpHash := (fun x => x) (generateOTP 0), createdAt := 100,
            expiresAt := 100 + OTP_EXPIRY_MS, used := false, attempts := 0 }]) :=
  ⟨by decide, by decide, by decide,
   C10_attempts_counter_bounded
     [CoreOp.issue (fun x => x) 0 true 100 2 "a@b.c",
      CoreOp.verify (fun x => x) true 200 "a@b.c" "111111"]
     ⟨[⟨1, "a@b.c", "654321", 0, 1000, false, 5⟩], []⟩
     (fun x => x) 0 true 100 2 "a@b.c"
     ⟨[⟨1, "a@b.c", "654321", 0, 1000, false, 5⟩], []⟩
     (by decide) (by decide) (by decide)⟩

example : isValidEmail "a@b.c" = true := by decide
example : isValidEmail "not-an-email" = false := by decide
example : isValidOTP "123456" = true := by decide
example : isValidOTP "12a45" = false := by decide
example : isValidOTP "1234567" = false := by decide
example : generateOTP 0 = "100000" := by decide
example : generateOTP 4294967295 = "267295" := by decide
example : normalizeEmail "A@B.c " = "a@b.c" := by decide
